import Mathlib

/-!
Shallow embedding of the NuBBE scraper (src/scraper.py) and verification of
its specified extraction, pipeline and request-construction behavior.

Modelling conventions:
* A parsed markup document (`BeautifulSoup` handle) is modelled as the list
  of its elements in document order, each an `Elem` with a tag name and its
  text content.  `doc.find_all(tag)` is filtering by tag name.
* Python string methods used by the source are embedded on `List Char`:
  `strip()` drops whitespace at both ends, `replace('\n', ' ')` maps each
  newline character to one space.
* `MoleculeDetailXmlParser.__find_all` returns the Python string `''` when
  there are zero matches and a list of strings otherwise.  The empty string
  and the empty list are observationally equal at every call site (both are
  falsy, both iterate to nothing, both join to `''`), so the embedding
  returns `List String`, with `[]` standing for that `''`.
* Python `dict` lookups that can raise `KeyError` are embedded as `Option`
  lookups, and extraction is `Except ScrapeError`-valued; the error
  constructor `unresolvedCode` stands for the `KeyError` raised on a
  missing code-table entry, and `indexError` for the `IndexError` raised
  by `data[0]` in `CsvFileExporter.exportTo`.
-/

/-- One element of a parsed markup document: its tag name and text content. -/
structure Elem where
  tag : String
  text : String
deriving DecidableEq

/-- A detail document: its elements in document order. -/
abbrev Doc := List Elem

/-- Characters stripped by Python `str.strip()` (ASCII whitespace). -/
def isPySpace (c : Char) : Bool :=
  c = ' ' || c = '\t' || c = '\n' || c = '\r' || c = '\x0b' || c = '\x0c'

/-- Python `s.strip()` on the character list. -/
def stripChars (l : List Char) : List Char :=
  ((l.dropWhile isPySpace).reverse.dropWhile isPySpace).reverse

/-- `x.text.strip().replace('\n', ' ')` applied to one element's text:
strip both ends, then turn each remaining newline into one space. -/
def elemText (s : String) : String :=
  String.mk ((stripChars s.data).map (fun c => if c = '\n' then ' ' else c))

/-- Python `', '.join(...)` (and in general `sep.join(...)`). -/
def joinSep (sep : String) : List String → String
  | [] => ""
  | [s] => s
  | s :: ss => s ++ sep ++ joinSep sep ss

/-- `MoleculeDetailXmlParser.__find_all`: all elements with the given tag,
in document order, each normalized by `elemText` (`[]` models the `''`
returned on zero matches, see module docstring). -/
def find_all (doc : Doc) (tag : String) : List String :=
  (doc.filter (fun e => e.tag == tag)).map (fun e => elemText e.text)

/-- `MoleculeDetailXmlParser.__find`: first match, or `''` when there is
none (the empty list is falsy in Python, as is the `''` it stands for). -/
def find (doc : Doc) (tag : String) : String :=
  match find_all doc tag with
  | [] => ""
  | t :: _ => t

/-- Python `dict` lookup on an association list (document order of the
literal); `none` is a `KeyError`. -/
def lookupTable (tbl : List (String × String)) (k : String) : Option String :=
  (tbl.find? (fun p => p.1 == k)).map (fun p => p.2)

/-- Errors the embedded run can raise. -/
inductive ScrapeError where
  /-- `KeyError` on a code-table lookup (the spec's `UnresolvedCodeError`). -/
  | unresolvedCode (code : String)
  /-- `IndexError` raised by `data[0]` on an empty record list. -/
  | indexError
  /-- A transport-level failure while fetching one id. -/
  | fetchError (id : Nat)
deriving DecidableEq

/-- The `mappings` dict of `MoleculeDetailXmlParser.parse`: single-valued
output field name to source tag, in insertion order. -/
def detailMappings : List (String × String) :=
  [("NuBBE", "cod"),
   ("Common Name", "nome"),
   ("Inchi", "inchi"),
   ("Inchikey", "inchikey"),
   ("Chemical Class", "classe"),
   ("Mol Formula", "formol"),
   ("SMILES", "smiles"),
   ("Molecula Mass", "massa_molar"),
   ("Monoisotropic Mass", "massa_monoisotopica"),
   ("cLogP", "logp"),
   ("TPSA", "tpsa"),
   ("Lipinski Violations", "nvlr"),
   ("H-bond acceptors", "non"),
   ("H-bond donors", "nohnh"),
   ("Rotatable Bonds", "nrotb"),
   ("Molecular Volume", "mol_vol"),
   ("Location", "cidade")]

/-- The `multiple_mappings` dict: multi-valued output field to source tag. -/
def multipleMappings : List (String × String) :=
  [("References", "compilado"),
   ("Species", "origem")]

/-- The bio-properties code table of `__get_bio_properties`. -/
def bioMappings : List (String × String) :=
  [("28", "Activation of Glucoamylase"),
   ("55", "Anesthetic"),
   ("18", "Anthelmintic"),
   ("48", "Antiallergenic"),
   ("22", "Antiangiogenic"),
   ("13", "Antibacterial"),
   ("1", "Anticancer"),
   ("36", "Antichagasic"),
   ("2", "Antifungal"),
   ("15", "Anti-inflamatory"),
   ("20", "Antileishmanial"),
   ("11", "Antimalarial"),
   ("14", "Antinociceptive"),
   ("5", "Antioxidant"),
   ("7", "Antitrypanosomal"),
   ("54", "Anti-ulcerogenic"),
   ("6", "Antiviral"),
   ("23", "Anxiolytic"),
   ("35", "Cell growth inhbition"),
   ("9", "Cytotoxic"),
   ("61", "Genotoxic"),
   ("56", "Induction of ROS production"),
   ("3", "Inhibition of Acetylcholinesterase"),
   ("30", "Inhibition of ATP synthesis"),
   ("31", "Inhibition of basal electron transport"),
   ("47", "Inhibition of Cathepsin B"),
   ("46", "Inhibition of Cathepsin L"),
   ("40", "Inhibition of Cathepsin V"),
   ("59", "Inhibition of Cyclin-dependant Kinase (CDK)"),
   ("29", "Inhibition of Glyceraldehyde-3- phosphate"),
   ("19", "Inhibition of Glycosidase"),
   ("4", "Inhibition of Heme polymerisation"),
   ("26", "Inhibition of Myeloperoxidase"),
   ("25", "Inhibition of NADPH Oxidase"),
   ("21", "Inhibition of NF KB activation"),
   ("32", "Inhibition of phosphorylating electron transport"),
   ("12", "Inhibition of Protease"),
   ("24", "Inhibition of ROS Production by Neutrophils"),
   ("58", "Inhibition of Topoisomerase"),
   ("57", "Inhibition of Tubulin polymerization"),
   ("33", "Inhibition of uncoupled electron transport"),
   ("49", "Insect antennae response"),
   ("8", "Insecticidal"),
   ("50", "Molluscicidal"),
   ("60", "Mutagenic"),
   ("17", "Nematostatic")]

/-- The source-type code table of `__get_sources`. -/
def sourceMappings : List (String × String) :=
  [("2", "Semisynthesis"),
   ("3", "Biotransformation product"),
   ("4", "Isolated from a plant"),
   ("5", "Isolated from a microorganism"),
   ("6", "Isolated from a marine organism"),
   ("7", "Isolated from animalia")]

/-- `', '.join(mappings[i] for i in ids)`: the generator is consumed left to
right and its first `KeyError` (unmapped code) aborts the join. -/
def resolveAll (tbl : List (String × String)) : List String → Except ScrapeError (List String)
  | [] => .ok []
  | c :: cs =>
    match lookupTable tbl c with
    | none => .error (.unresolvedCode c)
    | some l =>
      match resolveAll tbl cs with
      | .error e => .error e
      | .ok ls => .ok (l :: ls)

/-- `MoleculeDetailXmlParser.__get_bio_properties`. -/
def get_bio_properties (doc : Doc) : Except ScrapeError String :=
  match resolveAll bioMappings (find_all doc "which") with
  | .error e => .error e
  | .ok ls => .ok (joinSep ", " ls)

/-- `MoleculeDetailXmlParser.__get_sources`: `mappings[self.__find('tipo')]`.
The dict subscript raises `KeyError` when the looked-up string (the first
match's text, or `''` when no `tipo` element exists) has no entry. -/
def get_sources (doc : Doc) : Except ScrapeError String :=
  match lookupTable sourceMappings (find doc "tipo") with
  | none => .error (.unresolvedCode (find doc "tipo"))
  | some l => .ok l

/-- One flat record: output field name to string value, in insertion order
(Python 3.7+ `dict` preserves insertion order). -/
abbrev FlatRecord := List (String × String)

/-- `MoleculeDetailXmlParser.parse`: single-valued fields from `mappings`,
then the two `', '`-joined multi-valued fields, then the two derived
categorical fields, in that insertion order.  `__get_bio_properties` runs
before `__get_sources`, so its error wins when both would raise. -/
def parseDetail (doc : Doc) : Except ScrapeError FlatRecord :=
  match get_bio_properties doc with
  | .error e => .error e
  | .ok bio =>
    match get_sources doc with
    | .error e => .error e
    | .ok src =>
      .ok ((detailMappings.map (fun p => (p.1, find doc p.2)))
        ++ (multipleMappings.map (fun p => (p.1, joinSep ", " (find_all doc p.2))))
        ++ [("Biological Properties", bio), ("Source(s)", src)])

/-- The value stored under a key of a `FlatRecord` (first occurrence). -/
def valueOf (rec : FlatRecord) (k : String) : Option String :=
  (rec.find? (fun p => p.1 == k)).map (fun p => p.2)

/-- The key sequence every successful `parseDetail` produces: the 17
`mappings` names in order, then the derived fields. -/
def expectedKeys : List String :=
  ["NuBBE", "Common Name", "Inchi", "Inchikey", "Chemical Class",
   "Mol Formula", "SMILES", "Molecula Mass", "Monoisotropic Mass", "cLogP",
   "TPSA", "Lipinski Violations", "H-bond acceptors", "H-bond donors",
   "Rotatable Bonds", "Molecular Volume", "Location",
   "References", "Species", "Biological Properties", "Source(s)"]

deriving instance DecidableEq for Except

/-- What `CsvFileExporter.exportTo` leaves behind: whether the destination
file was created (opened for writing), the delimited lines written to it
(header first), and the normal or exceptional outcome. -/
structure ExportOutcome where
  fileCreated : Bool
  lines : List (List String)
  result : Except ScrapeError Unit
deriving DecidableEq

/-- `CsvFileExporter.exportTo`: `with open(location, 'w')` creates (or
truncates) the destination file before `DictWriter` touches `data`, so on an
empty record list the file exists (empty) when `data[0]` raises
`IndexError`.  On a non-empty list the header is the first record's key
sequence and each row is a record's values in that key order (records are
uniformly keyed, see the key-set theorems below). -/
def exportTo (data : List FlatRecord) : ExportOutcome :=
  match data with
  | [] => ⟨true, [], .error .indexError⟩
  | r :: rs =>
    ⟨true,
     (r.map (fun p => p.1)) :: (r :: rs).map (fun rec => rec.map (fun p => p.2)),
     .ok ()⟩

/-- What one run of `Scraper.scrape` did: which ids had a detail fetch
attempted (in order), whether the exporter was invoked, whether a file
appeared at the destination, and the run's outcome. -/
structure RunOutcome where
  processed : List Nat
  exporterInvoked : Bool
  fileCreated : Bool
  result : Except ScrapeError Unit
deriving DecidableEq

/-- The list comprehension of `Scraper.scrape`: fetch-and-extract each id in
order; the first exception aborts the comprehension, leaving later ids
unprocessed.  `f` abstracts `extract_molecule_detail` (detail fetch plus
`parseDetail`) for one id. -/
def runDetails (f : Nat → Except ScrapeError FlatRecord) :
    List Nat → List Nat × Except ScrapeError (List FlatRecord)
  | [] => ([], .ok [])
  | id :: rest =>
    match f id with
    | .error e => ([id], .error e)
    | .ok r =>
      match runDetails f rest with
      | (p, .error e) => (id :: p, .error e)
      | (p, .ok rs) => (id :: p, .ok (r :: rs))

/-- `Scraper.scrape`: build the detail list, then hand it to the exporter.
An exception while building the list propagates before `exportTo` runs, so
the exporter is not invoked and no file is created; otherwise `exportTo`
runs on whatever list was built (even the empty one). -/
def scrape (f : Nat → Except ScrapeError FlatRecord) (ids : List Nat) : RunOutcome :=
  match runDetails f ids with
  | (p, .error e) => ⟨p, false, false, .error e⟩
  | (p, .ok records) =>
    let out := exportTo records
    ⟨p, true, out.fileCreated, out.result⟩

/-- `Utils.make_url`. -/
def make_url (path : String) : String :=
  "https://nubbe.iq.unesp.br/portal" ++ path

/-- `MoleculeDetailRequest.__init__`: the `reqid` token is interpolated into
`base_path` once, at construction, and reused by every `get`. -/
def detailBasePath (reqid : String) : String :=
  "/do/Query?reqid=" ++ reqid ++ "&service=21"

/-- The URL `MoleculeDetailRequest.get(molecule_id)` requests: the instance's
fixed `base_path` plus the id rendered in decimal. -/
def detailUrl (reqid : String) (id : Nat) : String :=
  make_url (detailBasePath reqid ++ "&id=" ++ Nat.repr id)

/-- The URLs a run requests: one `get` per id on the single
`MoleculeDetailRequest` instance `Scraper` holds, so one shared token. -/
def runUrls (reqid : String) (ids : List Nat) : List String :=
  ids.map (detailUrl reqid)

/-- Decimal value of a digit character (inverse of `Nat.digitChar` below 10). -/
def digitVal (c : Char) : Nat :=
  if c = '0' then 0 else
  if c = '1' then 1 else
  if c = '2' then 2 else
  if c = '3' then 3 else
  if c = '4' then 4 else
  if c = '5' then 5 else
  if c = '6' then 6 else
  if c = '7' then 7 else
  if c = '8' then 8 else
  if c = '9' then 9 else 0

/-- Value of a decimal digit string, most significant first. -/
def digitsVal (l : List Char) : Nat :=
  l.foldl (fun a c => 10 * a + digitVal c) 0

/-! ### Shared helper lemmas -/

lemma find_all_eq_nil (doc : Doc) (tag : String) (h : ∀ e ∈ doc, e.tag ≠ tag) :
    find_all doc tag = [] := by
  unfold find_all
  rw [List.filter_eq_nil_iff.mpr (fun e he => by simpa using h e he)]
  rfl

lemma find_eq_empty (doc : Doc) (tag : String) (h : ∀ e ∈ doc, e.tag ≠ tag) :
    find doc tag = "" := by
  unfold find
  rw [find_all_eq_nil doc tag h]

lemma parseDetail_ok_shape (doc : Doc) (rec : FlatRecord) (h : parseDetail doc = .ok rec) :
    ∃ bio src, get_bio_properties doc = .ok bio ∧ get_sources doc = .ok src ∧
      rec = (detailMappings.map (fun p => (p.1, find doc p.2)))
        ++ (multipleMappings.map (fun p => (p.1, joinSep ", " (find_all doc p.2))))
        ++ [("Biological Properties", bio), ("Source(s)", src)] := by
  unfold parseDetail at h
  cases hb : get_bio_properties doc with
  | error e => rw [hb] at h; exact absurd h (by simp)
  | ok bio =>
    cases hs : get_sources doc with
    | error e => rw [hb, hs] at h; exact absurd h (by simp)
    | ok src =>
      rw [hb, hs] at h
      exact ⟨bio, src, rfl, rfl, (Except.ok.injEq _ _ ▸ h).symm⟩

/-- C1: every record a successful `parseDetail` returns has exactly the 17
`mappings` output names in `mappings` order, then the derived fields
`References`, `Species`, `Biological Properties`, `Source(s)`, whatever tags
the document does or does not contain. -/
theorem C1_uniform_keys (doc : Doc) (rec : FlatRecord) (h : parseDetail doc = .ok rec) :
    rec.map (fun p => p.1) = expectedKeys := by
  obtain ⟨bio, src, _, _, hrec⟩ := parseDetail_ok_shape doc rec h
  subst hrec
  simp [detailMappings, multipleMappings, expectedKeys]

def docW1 : Doc := [⟨"tipo", "4"⟩]

def recW1 : FlatRecord :=
  [("NuBBE", ""), ("Common Name", ""), ("Inchi", ""), ("Inchikey", ""),
   ("Chemical Class", ""), ("Mol Formula", ""), ("SMILES", ""),
   ("Molecula Mass", ""), ("Monoisotropic Mass", ""), ("cLogP", ""),
   ("TPSA", ""), ("Lipinski Violations", ""), ("H-bond acceptors", ""),
   ("H-bond donors", ""), ("Rotatable Bonds", ""), ("Molecular Volume", ""),
   ("Location", ""), ("References", ""), ("Species", ""),
   ("Biological Properties", ""), ("Source(s)", "Isolated from a plant")]

theorem C1_witness : recW1.map (fun p => p.1) = expectedKeys :=
  C1_uniform_keys docW1 recW1 (by rfl)

/-- C8: in every successful record, each single-valued field from
`mappings` is present (with the empty string when no element bears its
source tag, so never absent and never null), and with at least one match it
is the first match's text, stripped and with newlines turned to spaces. -/
theorem C8_single_valued (doc : Doc) (rec : FlatRecord) (h : parseDetail doc = .ok rec)
    (name tag : String) (hmem : (name, tag) ∈ detailMappings) :
    (name, find doc tag) ∈ rec ∧
    ((∀ e ∈ doc, e.tag ≠ tag) → find doc tag = "") ∧
    (∀ e rest, doc.filter (fun e2 => e2.tag == tag) = e :: rest →
      find doc tag = elemText e.text) := by
  obtain ⟨bio, src, _, _, hrec⟩ := parseDetail_ok_shape doc rec h
  refine ⟨?_, fun hnone => find_eq_empty doc tag hnone, ?_⟩
  · subst hrec
    exact List.mem_append_left _ (List.mem_append_left _
      (List.mem_map.mpr ⟨(name, tag), hmem, rfl⟩))
  · intro e rest hf
    unfold find find_all
    rw [hf]
    rfl

def docW8 : Doc := [⟨"cod", " NB-0001 "⟩, ⟨"tipo", "2"⟩]

def recW8 : FlatRecord :=
  [("NuBBE", "NB-0001"), ("Common Name", ""), ("Inchi", ""), ("Inchikey", ""),
   ("Chemical Class", ""), ("Mol Formula", ""), ("SMILES", ""),
   ("Molecula Mass", ""), ("Monoisotropic Mass", ""), ("cLogP", ""),
   ("TPSA", ""), ("Lipinski Violations", ""), ("H-bond acceptors", ""),
   ("H-bond donors", ""), ("Rotatable Bonds", ""), ("Molecular Volume", ""),
   ("Location", ""), ("References", ""), ("Species", ""),
   ("Biological Properties", ""), ("Source(s)", "Semisynthesis")]

theorem C8_witness : ("NuBBE", "NB-0001") ∈ recW8 ∧ find docW8 "nome" = "" :=
  ⟨(C8_single_valued docW8 recW8 (by rfl) "NuBBE" "cod" (by decide)).1,
   (C8_single_valued docW8 recW8 (by rfl) "Common Name" "nome" (by decide)).2.1
     (by intro e he; simp [docW8] at he; rcases he with h | h <;> subst h <;> decide)⟩

/-- C10: a document with zero `which` elements yields the empty string for
the bio-properties field with no error raised: zero categorical matches is
not an unresolved code. -/
theorem C10_no_which (doc : Doc) (h : ∀ e ∈ doc, e.tag ≠ "which") :
    get_bio_properties doc = .ok "" := by
  unfold get_bio_properties
  rw [find_all_eq_nil doc "which" h]
  rfl

theorem C10_witness : get_bio_properties [⟨"tipo", "2"⟩] = .ok "" :=
  C10_no_which [⟨"tipo", "2"⟩]
    (by intro e he; rw [List.mem_singleton] at he; subst he; decide)

/-- C3 counterexample: on a document with no `tipo` element at all, the
source-type extraction does not yield the empty string without error — it
raises (the `''` returned by `__find` is looked up in the table and is
unmapped), refuting the claim's absence-is-benign half. -/
theorem C3_counterexample :
    get_sources ([] : Doc) ≠ .ok "" ∧
    get_sources ([] : Doc) = .error (.unresolvedCode "") := by
  exact ⟨by decide, by decide⟩

/-- C3 amended: for the `Source(s)` field, an absent `tipo` element raises
an unresolved-code error on the empty string exactly as a present but
unmapped code raises one on that code; only a present, mapped code
succeeds, with its table label. -/
theorem C3_amended_sources (doc : Doc) :
    ((∀ e ∈ doc, e.tag ≠ "tipo") → get_sources doc = .error (.unresolvedCode "")) ∧
    (∀ t ts, find_all doc "tipo" = t :: ts → lookupTable sourceMappings t = none →
      get_sources doc = .error (.unresolvedCode t)) ∧
    (∀ l, lookupTable sourceMappings (find doc "tipo") = some l →
      get_sources doc = .ok l) := by
  refine ⟨fun hnone => ?_, fun t ts hf hn => ?_, fun l hl => ?_⟩
  · unfold get_sources
    rw [find_eq_empty doc "tipo" hnone]
    rfl
  · have hfind : find doc "tipo" = t := by unfold find; rw [hf]
    unfold get_sources
    rw [hfind, hn]
  · unfold get_sources
    rw [hl]

theorem C3_witness :
    get_sources ([⟨"cod", "NB-1"⟩] : Doc) = .error (.unresolvedCode "") ∧
    get_sources ([⟨"tipo", "99"⟩] : Doc) = .error (.unresolvedCode "99") ∧
    get_sources ([⟨"tipo", "4"⟩] : Doc) = .ok "Isolated from a plant" :=
  ⟨(C3_amended_sources _).1
     (by intro e he; rw [List.mem_singleton] at he; subst he; decide),
   (C3_amended_sources _).2.1 "99" [] (by rfl) (by rfl),
   (C3_amended_sources _).2.2 "Isolated from a plant" (by rfl)⟩

def docC4 : Doc := [⟨"origem", "Fam"⟩, ⟨"origem", "Gen"⟩, ⟨"tipo", "2"⟩]

/-- C4 counterexample: with two `origem` elements `Fam` and `Gen` the
produced `Species` value is `Fam, Gen` — the same `', '` separator as
`References` — not the space-joined `Fam Gen` the claim asserts. -/
theorem C4_counterexample :
    (parseDetail docC4).toOption.bind (fun rec => valueOf rec "Species") =
      some "Fam, Gen" ∧
    ("Fam, Gen" : String) ≠ "Fam Gen" := by
  exact ⟨by rfl, by decide⟩

/-- C4 amended: the `Species` field is produced exactly like the free-text
multi-valued fields: all matching `origem` elements' normalized texts joined
by `', '` in document order (a family/genus/species triple is space-joined
only when it sits inside a single `origem` element's text, where internal
newlines become single spaces). -/
theorem C4_amended_species (doc : Doc) (rec : FlatRecord) (h : parseDetail doc = .ok rec) :
    valueOf rec "Species" = some (joinSep ", " (find_all doc "origem")) := by
  obtain ⟨bio, src, _, _, hrec⟩ := parseDetail_ok_shape doc rec h
  subst hrec
  simp [valueOf, detailMappings, multipleMappings, List.find?]

def recC4 : FlatRecord :=
  [("NuBBE", ""), ("Common Name", ""), ("Inchi", ""), ("Inchikey", ""),
   ("Chemical Class", ""), ("Mol Formula", ""), ("SMILES", ""),
   ("Molecula Mass", ""), ("Monoisotropic Mass", ""), ("cLogP", ""),
   ("TPSA", ""), ("Lipinski Violations", ""), ("H-bond acceptors", ""),
   ("H-bond donors", ""), ("Rotatable Bonds", ""), ("Molecular Volume", ""),
   ("Location", ""), ("References", ""), ("Species", "Fam, Gen"),
   ("Biological Properties", ""), ("Source(s)", "Semisynthesis")]

theorem C4_witness : valueOf recC4 "Species" = some "Fam, Gen" :=
  C4_amended_species docC4 recC4 (by rfl)

/-- C7: in every successful record, the `References` value is the normalized
texts of all `compilado` elements joined by `', '` in document order, and
zero matches yield the empty string (the `Species` analogue is
`C4_amended_species`; both run through the same `multiple_mappings` loop). -/
theorem C7_references (doc : Doc) (rec : FlatRecord) (h : parseDetail doc = .ok rec) :
    valueOf rec "References" =
      some (joinSep ", " ((doc.filter (fun e => e.tag == "compilado")).map
        (fun e => elemText e.text))) ∧
    ((∀ e ∈ doc, e.tag ≠ "compilado") → valueOf rec "References" = some "") := by
  obtain ⟨bio, src, _, _, hrec⟩ := parseDetail_ok_shape doc rec h
  have hval : valueOf rec "References" = some (joinSep ", " (find_all doc "compilado")) := by
    subst hrec
    simp [valueOf, detailMappings, multipleMappings, List.find?]
  refine ⟨by rw [hval]; rfl, fun hnone => ?_⟩
  rw [hval, find_all_eq_nil doc "compilado" hnone]
  rfl

def docC7 : Doc := [⟨"compilado", "Ref A"⟩, ⟨"compilado", "Ref B"⟩, ⟨"tipo", "2"⟩]

def recC7 : FlatRecord :=
  [("NuBBE", ""), ("Common Name", ""), ("Inchi", ""), ("Inchikey", ""),
   ("Chemical Class", ""), ("Mol Formula", ""), ("SMILES", ""),
   ("Molecula Mass", ""), ("Monoisotropic Mass", ""), ("cLogP", ""),
   ("TPSA", ""), ("Lipinski Violations", ""), ("H-bond acceptors", ""),
   ("H-bond donors", ""), ("Rotatable Bonds", ""), ("Molecular Volume", ""),
   ("Location", ""), ("References", "Ref A, Ref B"), ("Species", ""),
   ("Biological Properties", ""), ("Source(s)", "Semisynthesis")]

theorem C7_witness : valueOf recC7 "References" = some "Ref A, Ref B" :=
  (C7_references docC7 recC7 (by rfl)).1

lemma resolveAll_ok_of_map_some (tbl : List (String × String)) :
    ∀ (cs labels : List String), cs.map (lookupTable tbl) = labels.map some →
    resolveAll tbl cs = .ok labels := by
  intro cs
  induction cs with
  | nil =>
    intro labels h
    cases labels with
    | nil => rfl
    | cons l ls => simp at h
  | cons c cs ih =>
    intro labels h
    cases labels with
    | nil => simp at h
    | cons l ls =>
      simp only [List.map_cons, List.cons.injEq] at h
      obtain ⟨h1, h2⟩ := h
      unfold resolveAll
      rw [h1, ih ls h2]

lemma resolveAll_error_of_none (tbl : List (String × String)) :
    ∀ (cs : List String) (c : String), c ∈ cs → lookupTable tbl c = none →
    ∃ c2, lookupTable tbl c2 = none ∧
      resolveAll tbl cs = .error (.unresolvedCode c2) := by
  intro cs
  induction cs with
  | nil => intro c hc; cases hc
  | cons a cs ih =>
    intro c hc hn
    cases haa : lookupTable tbl a with
    | none => exact ⟨a, haa, by unfold resolveAll; rw [haa]⟩
    | some l =>
      have hcs : c ∈ cs := by
        rcases List.mem_cons.mp hc with h | h
        · subst h; rw [haa] at hn; cases hn
        · exact h
      obtain ⟨c2, h1, h2⟩ := ih c hcs hn
      exact ⟨c2, h1, by unfold resolveAll; rw [haa, h2]⟩

/-- C5: when every `which` code in the document resolves in the
bio-properties table, the field is the resolved labels joined by `', '` in
the order the codes appear; when some code has no entry, the extraction
raises an unresolved-code error (the embedded `KeyError`), so the code is
never silently dropped. -/
theorem C5_bio_codes :
    (∀ (doc : Doc) (labels : List String),
      (find_all doc "which").map (lookupTable bioMappings) = labels.map some →
      get_bio_properties doc = .ok (joinSep ", " labels)) ∧
    (∀ (doc : Doc) (c : String), c ∈ find_all doc "which" →
      lookupTable bioMappings c = none →
      ∃ c2, lookupTable bioMappings c2 = none ∧
        get_bio_properties doc = .error (.unresolvedCode c2)) := by
  constructor
  · intro doc labels h
    unfold get_bio_properties
    rw [resolveAll_ok_of_map_some bioMappings _ labels h]
  · intro doc c hc hn
    obtain ⟨c2, h1, h2⟩ := resolveAll_error_of_none bioMappings _ c hc hn
    exact ⟨c2, h1, by unfold get_bio_properties; rw [h2]⟩

theorem C5_witness :
    get_bio_properties [⟨"which", "1"⟩, ⟨"which", "9"⟩] = .ok "Anticancer, Cytotoxic" ∧
    ∃ c2, lookupTable bioMappings c2 = none ∧
      get_bio_properties [⟨"which", "999"⟩] = .error (.unresolvedCode c2) :=
  ⟨C5_bio_codes.1 _ ["Anticancer", "Cytotoxic"] (by rfl),
   C5_bio_codes.2 _ "999" (by decide) (by rfl)⟩

/-- C2 (code behavior at the failing input): with an empty id sequence the
run does not stop before the exporter — `exportTo` is invoked on the empty
list, the destination file is created (opened for writing, hence a
zero-byte file), and only then does `data[0]` raise `IndexError`. -/
theorem C2_empty_index_run :
    scrape (fun _ => .ok []) [] =
      { processed := [], exporterInvoked := true, fileCreated := true,
        result := .error .indexError } := by
  rfl

lemma runDetails_first_error (f : Nat → Except ScrapeError FlatRecord)
    (post : List Nat) (bad : Nat) (e : ScrapeError) (hbad : f bad = .error e) :
    ∀ pre : List Nat, (∀ id ∈ pre, ∃ r, f id = .ok r) →
    runDetails f (pre ++ bad :: post) = (pre ++ [bad], .error e) := by
  intro pre
  induction pre with
  | nil =>
    intro _
    show runDetails f (bad :: post) = _
    unfold runDetails
    rw [hbad]
    rfl
  | cons a pre ih =>
    intro hp
    obtain ⟨r, hr⟩ := hp a (List.mem_cons_self a pre)
    have hrest := ih (fun id hid => hp id (List.mem_cons_of_mem a hid))
    show runDetails f (a :: (pre ++ bad :: post)) = _
    unfold runDetails
    rw [hr, hrest]
    rfl

/-- C6: if the detail fetch-and-extraction step fails on some id (every id
before it succeeding), the run aborts right there: the ids after it are
never processed, the exporter is never invoked, and no output file is
created — the all-or-nothing behavior of the list comprehension in
`Scraper.scrape`. -/
theorem C6_abort_on_failure (f : Nat → Except ScrapeError FlatRecord)
    (pre post : List Nat) (bad : Nat) (e : ScrapeError)
    (hpre : ∀ id ∈ pre, ∃ r, f id = .ok r) (hbad : f bad = .error e) :
    scrape f (pre ++ bad :: post) =
      { processed := pre ++ [bad], exporterInvoked := false,
        fileCreated := false, result := .error e } := by
  unfold scrape
  rw [runDetails_first_error f post bad e hbad pre hpre]

def fW6 : Nat → Except ScrapeError FlatRecord := fun id =>
  if id = 2 then .error (.fetchError 2) else .ok []

theorem C6_witness :
    scrape fW6 [0, 1, 2, 3] =
      { processed := [0, 1, 2], exporterInvoked := false,
        fileCreated := false, result := .error (.fetchError 2) } :=
  C6_abort_on_failure fW6 [0, 1] [3] 2 (.fetchError 2)
    (by
      intro id hid
      refine ⟨[], ?_⟩
      simp at hid
      rcases hid with h | h <;> subst h <;> rfl)
    (by rfl)

/-- C9 counterexample: the `reqid` token is interpolated once, in
`MoleculeDetailRequest.__init__`, and `Scraper` holds a single instance for
the whole run, so two fetches of the same id carry byte-identical URLs —
the run's URL list is not pairwise distinct, refuting per-request
freshness. -/
theorem C9_counterexample :
    ¬ List.Pairwise (fun a b => a ≠ b) (runUrls "0.123" [7, 7]) := by
  intro h
  simp only [runUrls, List.map, List.pairwise_cons] at h
  exact h.1 (detailUrl "0.123" 7) (List.mem_singleton.mpr rfl) rfl

lemma digitVal_digitChar (n : Nat) (h : n < 10) :
    digitVal (Nat.digitChar n) = n := by
  interval_cases n <;> rfl

lemma toDigitsCore_val (fuel : Nat) :
    ∀ (n : Nat) (ds : List Char), n < fuel →
    digitsVal (Nat.toDigitsCore 10 fuel n ds) =
      ds.foldl (fun a c => 10 * a + digitVal c) n := by
  induction fuel with
  | zero => intro n ds h; cases h
  | succ fuel ih =>
    intro n ds h
    unfold Nat.toDigitsCore
    by_cases h0 : n / 10 = 0
    · rw [if_pos h0]
      have hn : n < 10 := (Nat.div_eq_zero_iff (by norm_num)).mp h0
      show digitsVal (Nat.digitChar (n % 10) :: ds) = _
      unfold digitsVal
      simp only [List.foldl_cons]
      rw [digitVal_digitChar (n % 10) (Nat.mod_lt n (by norm_num)),
        Nat.mul_zero, Nat.zero_add, Nat.mod_eq_of_lt hn]
    · rw [if_neg h0]
      have hpos : 0 < n := Nat.pos_of_ne_zero (by
        intro hz
        subst hz
        exact h0 rfl)
      have hlt : n / 10 < fuel :=
        Nat.lt_of_lt_of_le (Nat.div_lt_self hpos (by norm_num))
          (Nat.le_of_lt_succ h)
      rw [ih (n / 10) (Nat.digitChar (n % 10) :: ds) hlt]
      simp only [List.foldl_cons]
      rw [digitVal_digitChar (n % 10) (Nat.mod_lt n (by norm_num)),
        Nat.div_add_mod n 10]

lemma digitsVal_repr (n : Nat) : digitsVal (Nat.repr n).data = n := by
  show digitsVal (Nat.toDigits 10 n).asString.data = n
  have hdata : (Nat.toDigits 10 n).asString.data = Nat.toDigits 10 n := rfl
  rw [hdata]
  unfold Nat.toDigits
  rw [toDigitsCore_val (n + 1) n [] (Nat.lt_succ_self n)]
  rfl

lemma natRepr_injective (m n : Nat) (h : Nat.repr m = Nat.repr n) : m = n := by
  have := congrArg (fun s => digitsVal s.data) h
  simpa only [digitsVal_repr] using this

lemma string_data_append (s t : String) : (s ++ t).data = s.data ++ t.data := rfl

/-- C9 amended: the uniqueness token is fresh per `MoleculeDetailRequest`
instance (one per run), not per request: with the run's fixed token, fetches
of distinct ids still produce distinct URLs (they differ in the `id`
parameter), but two fetches of the same id produce identical URLs and are
not distinguishable by the server. -/
theorem C9_amended_urls (reqid : String) :
    (∀ i j : Nat, i ≠ j → detailUrl reqid i ≠ detailUrl reqid j) ∧
    (∀ i : Nat, detailUrl reqid i = detailUrl reqid i) := by
  refine ⟨fun i j hne heq => hne ?_, fun i => rfl⟩
  apply natRepr_injective
  have hdata := congrArg String.data heq
  simp only [detailUrl, make_url, detailBasePath, string_data_append,
    List.append_assoc, List.append_cancel_left_eq] at hdata
  exact congrArg String.mk hdata

theorem C9_witness :
    detailUrl "0.123" 7 ≠ detailUrl "0.123" 8 ∧
    detailUrl "0.123" 7 = detailUrl "0.123" 7 :=
  ⟨(C9_amended_urls "0.123").1 7 8 (by decide), (C9_amended_urls "0.123").2 7⟩
